import Mathlib

/-!
Verification of the Protocol-Events-Adapters event listening and
normalization pipeline.

The development embeds the core TypeScript modules shallowly:

* `src/core/EventListener.ts` — the `ProtocolEventListener` class: token
  metadata resolution with fallback tables, chain configuration lookup,
  pool discovery and the pool registry, and the V2/V3 swap-event
  normalization handlers (the raw amounts are JavaScript `BigInt`s
  rendered to decimal strings; the JS string operations `startsWith('-')`
  and `slice(1)` used by the V3 handler are modelled on the character
  list of the Lean string).
* `src/core/DataIngestionService.ts` — the buffered ingestion pipeline:
  `handleStandardizedEvent`, `flushEvents` and their re-buffer-on-failure
  retry behaviour, generic in the buffered event type.

Stateful class members (`tokenCache`, `knownPools`, `poolListeners`,
`eventBuffer`) become explicit state threaded through the functions;
asynchronous chain reads become oracle functions passed as arguments;
fallible operations return `Except`/`Option`.
-/

namespace ProtocolEvents

/-! ### JavaScript string primitives

The source operates on JavaScript strings.  A JS string's `startsWith`
with a one-character pattern inspects its first character, and
`slice(1)` drops the first character; both are modelled on the
character list underlying a Lean `String`.  A JS `BigInt`'s `toString`
renders a decimal representation, `"-"` followed by the digits of the
absolute value for negative values: exactly `Int.repr`.
-/

/-- Model of the JS `s.startsWith(c)` test for a one-character pattern:
true iff the first character of `s` is `c`. -/
def jsStartsWith (s : String) (c : Char) : Bool :=
  match s.data with
  | [] => false
  | d :: _ => d == c

/-- Model of the JS `s.slice(1)`: drop the first character. -/
def jsSliceOne (s : String) : String :=
  ⟨s.data.drop 1⟩

/-- Model of the JS `a || b` fallback chain on an optionally-present
string field: `undefined` and the empty string are falsy. -/
def jsOrStr (a : Option String) (b : String) : String :=
  match a with
  | none => b
  | some s => if s = "" then b else s

/-- Model of the JS `a || b` fallback chain on an optionally-present
numeric field: `undefined` and `0` are falsy. -/
def jsOrNat (a : Option Nat) (b : Nat) : Nat :=
  match a with
  | none => b
  | some n => if n = 0 then b else n

/-! Supporting facts about the decimal rendering `Nat.repr`/`Int.repr`. -/

theorem toDigitsCore_mem (f : Nat) : ∀ (n : Nat) (ds : List Char) (c : Char),
    c ∈ Nat.toDigitsCore 10 f n ds → c ∈ ds ∨ ∃ m, m < 10 ∧ c = Nat.digitChar m := by
  induction f with
  | zero => intro n ds c h; exact Or.inl h
  | succ f ih =>
    intro n ds c h
    simp only [Nat.toDigitsCore] at h
    by_cases h10 : n / 10 = 0
    · simp only [h10, if_pos rfl] at h
      rcases List.mem_cons.1 h with h | h
      · exact Or.inr ⟨n % 10, Nat.mod_lt _ (by norm_num), h⟩
      · exact Or.inl h
    · rw [if_neg h10] at h
      rcases ih (n / 10) (Nat.digitChar (n % 10) :: ds) c h with h | h
      · rcases List.mem_cons.1 h with h | h
        · exact Or.inr ⟨n % 10, Nat.mod_lt _ (by norm_num), h⟩
        · exact Or.inl h
      · exact Or.inr h

theorem toDigitsCore_length_lower (f : Nat) : ∀ (n : Nat) (ds : List Char), 0 < f →
    ds.length + 1 ≤ (Nat.toDigitsCore 10 f n ds).length := by
  induction f with
  | zero => intro n ds h; omega
  | succ f ih =>
    intro n ds _
    simp only [Nat.toDigitsCore]
    by_cases h10 : n / 10 = 0
    · simp [h10]
    · rw [if_neg h10]
      rcases Nat.eq_zero_or_pos f with hf | hf
      · subst hf; simp [Nat.toDigitsCore]
      · have := ih (n / 10) (Nat.digitChar (n % 10) :: ds) hf
        simp only [List.length_cons] at this
        omega

theorem digitChar_ne_dash : ∀ m, m < 10 → Nat.digitChar m ≠ '-' := by decide

theorem digitChar_eq_zero_iff : ∀ m, m < 10 → (Nat.digitChar m = '0' ↔ m = 0) := by decide

theorem toDigits_ne_nil (n : Nat) : Nat.toDigits 10 n ≠ [] := by
  have h := toDigitsCore_length_lower (n + 1) n [] (Nat.succ_pos n)
  intro hnil
  rw [Nat.toDigits] at hnil
  rw [hnil] at h
  simp at h

theorem mem_toDigits_ne_dash (n : Nat) (c : Char) (h : c ∈ Nat.toDigits 10 n) : c ≠ '-' := by
  rcases toDigitsCore_mem (n + 1) n [] c h with h' | ⟨m, hm, rfl⟩
  · simp at h'
  · exact digitChar_ne_dash m hm

theorem data_natRepr (n : Nat) : (Nat.repr n).data = Nat.toDigits 10 n := rfl

/-- The decimal rendering of a natural number never starts with `'-'`. -/
theorem jsStartsWith_natRepr (n : Nat) : jsStartsWith (Nat.repr n) '-' = false := by
  unfold jsStartsWith
  rw [data_natRepr]
  rcases hd : Nat.toDigits 10 n with _ | ⟨c, cs⟩
  · rfl
  · have hc : c ∈ Nat.toDigits 10 n := by rw [hd]; exact List.mem_cons_self _ _
    simpa using mem_toDigits_ne_dash n c hc

theorem data_append (a b : String) : (a ++ b).data = a.data ++ b.data := by
  cases a; cases b; rfl

theorem intRepr_ofNat (n : Nat) : Int.repr (Int.ofNat n) = Nat.repr n := rfl

theorem intRepr_nonneg (i : Int) (h : 0 ≤ i) : Int.repr i = Nat.repr i.natAbs := by
  cases i with
  | ofNat n => rfl
  | negSucc n => exact absurd h (by exact of_decide_eq_false rfl)

theorem intRepr_neg_data (i : Int) (h : i < 0) :
    (Int.repr i).data = '-' :: (Nat.repr i.natAbs).data := by
  cases i with
  | ofNat n => exact absurd h (Int.not_lt.mpr (Int.ofNat_nonneg n))
  | negSucc n =>
    show (("-" : String) ++ Nat.repr (n + 1)).data = _
    rw [data_append]
    rfl

/-- A negative integer's decimal rendering starts with `'-'`. -/
theorem jsStartsWith_intRepr_neg (i : Int) (h : i < 0) :
    jsStartsWith (Int.repr i) '-' = true := by
  unfold jsStartsWith
  rw [intRepr_neg_data i h]
  rfl

/-- A non-negative integer's decimal rendering does not start with `'-'`. -/
theorem jsStartsWith_intRepr_nonneg (i : Int) (h : 0 ≤ i) :
    jsStartsWith (Int.repr i) '-' = false := by
  rw [intRepr_nonneg i h]
  exact jsStartsWith_natRepr _

/-- JS `slice(1)` on a negative integer's rendering yields the rendering
of its absolute value. -/
theorem jsSliceOne_intRepr_neg (i : Int) (h : i < 0) :
    jsSliceOne (Int.repr i) = Nat.repr i.natAbs := by
  unfold jsSliceOne
  rw [intRepr_neg_data i h]
  rfl

theorem toDigitsCore_succ (f n : Nat) (ds : List Char) :
    Nat.toDigitsCore 10 (f + 1) n ds =
      if n / 10 = 0 then Nat.digitChar (n % 10) :: ds
      else Nat.toDigitsCore 10 f (n / 10) (Nat.digitChar (n % 10) :: ds) := rfl

/-- The rendering of a nonzero natural number is not the string `"0"`. -/
theorem natRepr_ne_zero (n : Nat) (h : n ≠ 0) : Nat.repr n ≠ "0" := by
  intro heq
  have hdata : Nat.toDigits 10 n = ['0'] := congrArg String.data heq
  rcases n with _ | m
  · exact h rfl
  rw [Nat.toDigits, toDigitsCore_succ] at hdata
  by_cases hdiv : (m + 1) / 10 = 0
  · rw [if_pos hdiv] at hdata
    have hlt : m + 1 < 10 := by omega
    have hchar : Nat.digitChar ((m + 1) % 10) = '0' := by
      simpa using hdata
    have hmod : (m + 1) % 10 = m + 1 := Nat.mod_eq_of_lt hlt
    have := (digitChar_eq_zero_iff ((m + 1) % 10) (by omega)).1 hchar
    omega
  · rw [if_neg hdiv] at hdata
    have hlen := toDigitsCore_length_lower (m + 1) ((m + 1) / 10)
      [Nat.digitChar ((m + 1) % 10)] (by omega)
    rw [hdata] at hlen
    simp at hlen

/-! ### Data model (`src/types/schemas.ts`) -/

/-- The protocol identifiers `'uniswap-v2' | 'uniswap-v3' | 'pancakeswap-v2'`. -/
inductive ProtocolType where
  | uniswapV2
  | uniswapV3
  | pancakeswapV2
deriving DecidableEq

/-- `TokenInfo` from `schemas.ts`; every code path of `getTokenInfo`
populates all four fields. -/
structure TokenInfo where
  address : String
  symbol : String
  decimals : Nat
  name : String
deriving DecidableEq

/-- `PoolInfo` from `schemas.ts`. -/
structure PoolInfo where
  address : String
  protocol : ProtocolType
  version : String
  token0 : TokenInfo
  token1 : TokenInfo
  fee : Option Nat
  tickSpacing : Option Int
  createdAt : Nat
  isActive : Bool
deriving DecidableEq

/-- The swap payload of `StandardizedEvent.data` (`SwapEventData` in
`schemas.ts`); the embedded handlers are the two swap handlers, both of
which build this payload.  `sqrtPriceX96`/`tick` are set only by the V3
handler. -/
structure SwapEventData where
  sender : String
  recipient : String
  amount0In : String
  amount1In : String
  amount0Out : String
  amount1Out : String
  sqrtPriceX96 : Option String
  tick : Option Int
deriving DecidableEq

/-- `StandardizedEvent` from `schemas.ts`, restricted to swap payloads
(the payload union member the embedded handlers construct). -/
structure StandardizedEvent where
  id : String
  protocol : ProtocolType
  version : String
  eventType : String
  timestamp : Nat
  blockNumber : Nat
  transactionHash : String
  logIndex : Nat
  poolAddress : String
  token0 : TokenInfo
  token1 : TokenInfo
  data : SwapEventData
deriving DecidableEq

/-! ### Association-list model of the JS `Map`s

`tokenCache`, `knownPools` and `poolListeners` are JS `Map`s keyed by
address strings; a `Map` holds at most one value per key and `set`
replaces an existing binding. -/

/-- JS `Map.set`: replace the first binding of the key, else append. -/
def mapSet {β : Type} (m : List (String × β)) (k : String) (v : β) : List (String × β) :=
  match m with
  | [] => [(k, v)]
  | (k', v') :: rest => if k' = k then (k, v) :: rest else (k', v') :: mapSet rest k v

/-- Number of bindings of a key in an association list. -/
def countKey {β : Type} : List (String × β) → String → Nat
  | [], _ => 0
  | (k', _) :: rest, k => (if k' = k then 1 else 0) + countKey rest k

theorem countKey_mapSet_self {β : Type} (m : List (String × β)) (k : String) (v : β) :
    countKey (mapSet m k v) k = max (countKey m k) 1 := by
  induction m with
  | nil => simp [mapSet, countKey]
  | cons e rest ih =>
    obtain ⟨k', v'⟩ := e
    simp only [mapSet]
    by_cases hk : k' = k
    · rw [if_pos hk]
      subst hk
      simp only [countKey, if_pos rfl]
      simp
    · rw [if_neg hk]
      simp only [countKey, if_neg hk, ih]
      omega

theorem countKey_mapSet_other {β : Type} (m : List (String × β)) (k a : String) (v : β)
    (hne : a ≠ k) : countKey (mapSet m k v) a = countKey m a := by
  induction m with
  | nil => simp [mapSet, countKey, Ne.symm hne]
  | cons e rest ih =>
    obtain ⟨k', v'⟩ := e
    simp only [mapSet]
    by_cases hk : k' = k
    · rw [if_pos hk]
      subst hk
      simp only [countKey, if_neg (Ne.symm hne)]
    · rw [if_neg hk]
      simp only [countKey, ih]

theorem countKey_mapSet_le {β : Type} (m : List (String × β)) (k a : String) (v : β)
    (h : countKey m a ≤ 1) : countKey (mapSet m k v) a ≤ 1 := by
  by_cases ha : a = k
  · subst ha
    rw [countKey_mapSet_self]
    omega
  · rw [countKey_mapSet_other m k a v ha]
    exact h

/-! ### Token Metadata Resolver (`EventListener.ts`, `getTokenInfo` /
`getFallbackTokenInfo`)

The chain read `Promise.all([symbol(), decimals(), name().catch(() =>
'Unknown')])` is modelled by an oracle: `ok symbol decimals name?`
when the combined read resolves (with `name? = none` when only the
`name()` call rejected, which the inner `.catch` absorbs), and `err`
when the read rejects, which sends `getTokenInfo` into its `catch`
block. -/

/-- Outcome of the ERC20 metadata chain read for one address. -/
inductive ChainReadResult where
  | ok (symbol : String) (decimals : Nat) (name : Option String)
  | err
deriving DecidableEq

/-- The static `knownTokens` table inside `getFallbackTokenInfo`
(EventListener.ts lines 1321-1344): address ↦ (symbol, decimals, name).
Each table entry stores `address: tokenAddress`, i.e. the queried key. -/
def knownTokensTable : List (String × (String × Nat × String)) :=
  [ ("0xC02aaA39b223FE8D0A0e5C4F27eAD9083C756Cc2", ("WETH", 18, "Wrapped Ether")),
    ("0xA0b86991c6218b36c1d19D4a2e9Eb0cE3606eB48", ("USDC", 6, "USD Coin")),
    ("0xdAC17F958D2ee523a2206206994597C13D831ec7", ("USDT", 6, "Tether USD")),
    ("0x6B175474E89094C44Da98b954EedeAC495271d0F", ("DAI", 18, "Dai Stablecoin")),
    ("0x2260FAC5E5542a773Aa44fBCfeDf7C193bc2C599", ("WBTC", 8, "Wrapped BTC")),
    ("0x1f9840a85d5aF5bf1D1762F925BDADdC4201F984", ("UNI", 18, "Uniswap")),
    ("0x514910771AF9Ca656af840dff83E8264EcF986CA", ("LINK", 18, "ChainLink Token")),
    ("0x0bc529c00C6401aEF6D220BE8C6Ea1667F6Ad93e", ("YFI", 18, "yearn.finance")),
    ("0xC011a73ee8576Fb46F5E1c5751cA3B9Fe0af2a6F", ("SNX", 18, "Synthetix Network Token")),
    ("0xbb4CdB9CBd36B01bD1cBaEBF2De08d9173bc095c", ("WBNB", 18, "Wrapped BNB")),
    ("0xe9e7CEA3DedcA5984780Bafc599bD69ADd087D56", ("BUSD", 18, "BUSD Token")),
    ("0x0E09FaBB73Bd3Ade0a17ECC321fD13a19e81cE82", ("CAKE", 18, "PancakeSwap Token")),
    ("0x2170Ed0880ac9A755fd29B2688956BD959F933F8", ("ETH", 18, "Ethereum Token")),
    ("0x55d398326f99059fF775485246999027B3197955", ("USDT", 18, "Tether USD")),
    ("0x7130d2A12B9BCbFAe4f2634d864A1Ee1Ce3Ead9c", ("BTCB", 18, "Bitcoin BEP2")) ]

/-- `getFallbackTokenInfo(tokenAddress)`: look the address up in the
static table; `null` when absent. -/
def getFallbackTokenInfo (tokenAddress : String) : Option TokenInfo :=
  match knownTokensTable.lookup tokenAddress with
  | some (s, d, n) => some ⟨tokenAddress, s, d, n⟩
  | none => none

/-- The sentinel returned when the chain read fails and the fallback
table has no entry (`getTokenInfo`'s final `return`). -/
def unknownTokenInfo (tokenAddress : String) : TokenInfo :=
  ⟨tokenAddress, "UNKNOWN", 18, "Unknown Token"⟩

/-- `getTokenInfo(tokenAddress)` (EventListener.ts lines 930-970),
threading the `tokenCache` member explicitly.  On a successful chain
read the result is returned directly (`name` substituted by
`"Unknown"` when only the `name()` call rejected); on a failed read
the fallback table is consulted and a hit is written to the cache;
otherwise the sentinel is returned.  The function never consults the
cache and never fails. -/
def getTokenInfo (chain : String → ChainReadResult)
    (tokenCache : List (String × TokenInfo)) (tokenAddress : String) :
    TokenInfo × List (String × TokenInfo) :=
  match chain tokenAddress with
  | .ok symbol decimals name =>
    (⟨tokenAddress, symbol, decimals, name.getD "Unknown"⟩, tokenCache)
  | .err =>
    match getFallbackTokenInfo tokenAddress with
    | some fallbackInfo => (fallbackInfo, mapSet tokenCache tokenAddress fallbackInfo)
    | none => (unknownTokenInfo tokenAddress, tokenCache)

/-! ### Chain configuration (`types/contracts.ts` `CONTRACT_ADDRESSES`,
`EventListener.ts` `getChainConfig` / `initializeFactoryListeners`) -/

/-- A protocol's factory and router addresses. -/
structure ProtocolAddresses where
  factory : String
  router : String
deriving DecidableEq

/-- `CONTRACT_ADDRESSES.ethereum`. -/
def contractAddressesEthereum : ProtocolType → Option ProtocolAddresses
  | .uniswapV2 => some ⟨"0x5C69bEe701ef814a2B6a3EDD4B1652CB9cc5aA6f",
      "0x7a250d5630B4cF539739dF2C5dAcb4c659F2488D"⟩
  | .uniswapV3 => some ⟨"0x1F98431c8aD98523631AE4a59f267346ea31F984",
      "0xE592427A0AEce92De3Edee1F18E0157C05861564"⟩
  | .pancakeswapV2 => some ⟨"0xcA143Ce0Fe65960e6Aa4D42C8d3cE161c2B6604f",
      "0x10ED43C718714eb63d5aA57B78B54704E256024E"⟩

/-- `CONTRACT_ADDRESSES.bsc`. -/
def contractAddressesBsc : ProtocolType → Option ProtocolAddresses
  | .pancakeswapV2 => some ⟨"0xcA143Ce0Fe65960e6Aa4D42C8d3cE161c2B6604f",
      "0x10ED43C718714eb63d5aA57B78B54704E256024E"⟩
  | _ => none

/-- `getChainConfig()` (EventListener.ts lines 980-989): chain 1 ↦
Ethereum, chain 56 ↦ BSC, any other chain id falls through to the
`default` case, which also returns the Ethereum configuration. -/
def getChainConfig (chainId : Nat) : ProtocolType → Option ProtocolAddresses :=
  match chainId with
  | 1 => contractAddressesEthereum
  | 56 => contractAddressesBsc
  | _ => contractAddressesEthereum

/-- The factory listener setup loop of `initializeFactoryListeners`
(EventListener.ts lines 154-170): for each configured protocol, a
protocol missing from the chain configuration is skipped with a
warning; otherwise a factory listener is registered at the
configuration's factory address. -/
def initFactoryListeners (chainId : Nat) (protocols : List ProtocolType) :
    List (ProtocolType × String) :=
  protocols.filterMap (fun protocol =>
    (getChainConfig chainId protocol).map (fun cfg => (protocol, cfg.factory)))

/-! ### Pool Discovery & Registry (`EventListener.ts`) -/

/-- The mutable members of `ProtocolEventListener` relevant to pool
discovery and the start/stop contract.  The `ethers.Contract` values
held by the listener maps carry no state the embedded logic reads, so
`factoryListeners` keeps the factory address registered per protocol
and `poolListeners` the set of pool addresses with attached listeners. -/
structure ListenerState where
  factoryListeners : List (ProtocolType × String)
  poolListeners : List String
  knownPools : List (String × PoolInfo)
  tokenCache : List (String × TokenInfo)
  isListening : Bool
deriving DecidableEq

/-- The freshly-constructed listener: all maps empty, not listening. -/
def initialListenerState : ListenerState :=
  ⟨[], [], [], [], false⟩

/-- `protocol.includes('v2') ? 'v2' : 'v3'` (EventListener.ts line 352). -/
def protocolVersion : ProtocolType → String
  | .uniswapV2 => "v2"
  | .pancakeswapV2 => "v2"
  | .uniswapV3 => "v3"

/-- `startPoolListening` (EventListener.ts lines 324-373): a pool whose
address already has a listener is skipped (a logged no-op); otherwise
both tokens are resolved, a `PoolInfo` is stored in `knownPools`, and
the address is recorded in `poolListeners`.  `now` stands for the
`Date.now()` used for `createdAt`. -/
def startPoolListening (chain : String → ChainReadResult) (now : Nat)
    (st : ListenerState) (protocol : ProtocolType)
    (poolAddress token0 token1 : String)
    (fee : Option Nat) (tickSpacing : Option Int) : ListenerState :=
  if poolAddress ∈ st.poolListeners then st
  else
    let r0 := getTokenInfo chain st.tokenCache token0
    let r1 := getTokenInfo chain r0.2 token1
    let poolInfo : PoolInfo :=
      { address := poolAddress
        protocol := protocol
        version := protocolVersion protocol
        token0 := r0.1
        token1 := r1.1
        fee := fee
        tickSpacing := tickSpacing
        createdAt := now
        isActive := true }
    { st with
        tokenCache := r1.2
        knownPools := mapSet st.knownPools poolAddress poolInfo
        poolListeners := st.poolListeners ++ [poolAddress] }

/-- The hardcoded popular pool list of `addPopularPools`
(EventListener.ts lines 1081-1143). -/
def popularPools : List (ProtocolType × String) :=
  [ (.uniswapV2, "0xB4e16d0168e52d35CaCD2c6185b44281Ec28C9Dc"),
    (.uniswapV2, "0x0d4a11d5EEaaC28EC3F61d100daF4d40471f1852"),
    (.uniswapV2, "0xA478c2975Ab1Ea89e8196811F51A7B7Ade33eB11"),
    (.uniswapV2, "0xBb2b8038a1640196FbE3e38816F3e67Cba72D940"),
    (.uniswapV2, "0x2fDbAdf3C4D5A8666Bc06645B8358ab803996E28"),
    (.uniswapV2, "0x43AE24960e5534731Fc831386c07755A2dc33D47"),
    (.uniswapV3, "0x88e6A0c2dDD26FEEb64F039a2c41296FcB3f5640"),
    (.uniswapV3, "0x11b815efB8f581194ae79006d24E0d814B7697F6"),
    (.uniswapV3, "0x1d42064Fc4Beb5F8aAF85F4617AE8b3b5B8Bd801"),
    (.uniswapV3, "0xCBCdF9626bC03E24f779434178A73a0B4bad62eD"),
    (.pancakeswapV2, "0x7213a321F1855CF1779f42c0CD85d3D95291D34C"),
    (.pancakeswapV2, "0x58F876857a02D6762E0101bb5C46A8c1ED44Dc16"),
    (.pancakeswapV2, "0x74E4716E431f45807DCF4f3fA29A161f9F79019e"),
    (.pancakeswapV2, "0x61EB789d75A95CAa3fF5ed22AB22bD1b5E2b9E32") ]

/-- The hardcoded table of `getFallbackToken0` (EventListener.ts lines
1222-1246). -/
def fallbackToken0Table : List (String × String) :=
  [ ("0xB4e16d0168e52d35CaCD2c6185b44281Ec28C9Dc", "0xA0b86991c6218b36c1d19D4a2e9Eb0cE3606eB48"),
    ("0x0d4a11d5EEaaC28EC3F61d100daF4d40471f1852", "0xC02aaA39b223FE8D0A0e5C4F27eAD9083C756Cc2"),
    ("0xA478c2975Ab1Ea89e8196811F51A7B7Ade33eB11", "0x1f9840a85d5aF5bf1D1762F925BDADdC4201F984"),
    ("0xBb2b8038a1640196FbE3e38816F3e67Cba72D940", "0x2260FAC5E5542a773Aa44fBCfeDf7C193bc2C599"),
    ("0x2fDbAdf3C4D5A8666Bc06645B8358ab803996E28", "0x6B175474E89094C44Da98b954EedeAC495271d0F"),
    ("0x43AE24960e5534731Fc831386c07755A2dc33D47", "0x514910771AF9Ca656af840dff83E8264EcF986CA"),
    ("0x88e6A0c2dDD26FEEb64F039a2c41296FcB3f5640", "0xA0b86991c6218b36c1d19D4a2e9Eb0cE3606eB48"),
    ("0x11b815efB8f581194ae79006d24E0d814B7697F6", "0xC02aaA39b223FE8D0A0e5C4F27eAD9083C756Cc2"),
    ("0x1d42064Fc4Beb5F8aAF85F4617AE8b3b5B8Bd801", "0x1f9840a85d5aF5bf1D1762F925BDADdC4201F984"),
    ("0xCBCdF9626bC03E24f779434178A73a0B4bad62eD", "0x2260FAC5E5542a773Aa44fBCfeDf7C193bc2C599"),
    ("0x7213a321F1855CF1779f42c0CD85d3D95291D34C", "0xbb4CdB9CBd36B01bD1cBaEBF2De08d9173bc095c"),
    ("0x58F876857a02D6762E0101bb5C46A8c1ED44Dc16", "0xbb4CdB9CBd36B01bD1cBaEBF2De08d9173bc095c"),
    ("0x74E4716E431f45807DCF4f3fA29A161f9F79019e", "0xbb4CdB9CBd36B01bD1cBaEBF2De08d9173bc095c"),
    ("0x61EB789d75A95CAa3fF5ed22AB22bD1b5E2b9E32", "0x0E09FaBB73Bd3Ade0a17ECC321fD13a19e81cE82") ]

/-- The hardcoded table of `getFallbackToken1` (EventListener.ts lines
1259-1283). -/
def fallbackToken1Table : List (String × String) :=
  [ ("0xB4e16d0168e52d35CaCD2c6185b44281Ec28C9Dc", "0xC02aaA39b223FE8D0A0e5C4F27eAD9083C756Cc2"),
    ("0x0d4a11d5EEaaC28EC3F61d100daF4d40471f1852", "0xdAC17F958D2ee523a2206206994597C13D831ec7"),
    ("0xA478c2975Ab1Ea89e8196811F51A7B7Ade33eB11", "0xC02aaA39b223FE8D0A0e5C4F27eAD9083C756Cc2"),
    ("0xBb2b8038a1640196FbE3e38816F3e67Cba72D940", "0xC02aaA39b223FE8D0A0e5C4F27eAD9083C756Cc2"),
    ("0x2fDbAdf3C4D5A8666Bc06645B8358ab803996E28", "0xC02aaA39b223FE8D0A0e5C4F27eAD9083C756Cc2"),
    ("0x43AE24960e5534731Fc831386c07755A2dc33D47", "0xC02aaA39b223FE8D0A0e5C4F27eAD9083C756Cc2"),
    ("0x88e6A0c2dDD26FEEb64F039a2c41296FcB3f5640", "0xC02aaA39b223FE8D0A0e5C4F27eAD9083C756Cc2"),
    ("0x11b815efB8f581194ae79006d24E0d814B7697F6", "0xdAC17F958D2ee523a2206206994597C13D831ec7"),
    ("0x1d42064Fc4Beb5F8aAF85F4617AE8b3b5B8Bd801", "0xC02aaA39b223FE8D0A0e5C4F27eAD9083C756Cc2"),
    ("0xCBCdF9626bC03E24f779434178A73a0B4bad62eD", "0xC02aaA39b223FE8D0A0e5C4F27eAD9083C756Cc2"),
    ("0x7213a321F1855CF1779f42c0CD85d3D95291D34C", "0xe9e7CEA3DedcA5984780Bafc599bD69ADd087D56"),
    ("0x58F876857a02D6762E0101bb5C46A8c1ED44Dc16", "0xe9e7CEA3DedcA5984780Bafc599bD69ADd087D56"),
    ("0x74E4716E431f45807DCF4f3fA29A161f9F79019e", "0xC02aaA39b223FE8D0A0e5C4F27eAD9083C756Cc2"),
    ("0x61EB789d75A95CAa3fF5ed22AB22bD1b5E2b9E32", "0xbb4CdB9CBd36B01bD1cBaEBF2De08d9173bc095c") ]

/-- `getToken0FromPool` (EventListener.ts lines 1175-1186): try the
pool's `token0()` read (oracle `readToken0`, `none` when the call
rejects); on failure consult the fallback table. -/
def getToken0FromPool (readToken0 : String → Option String) (poolAddress : String) :
    Option String :=
  match readToken0 poolAddress with
  | some t => some t
  | none => fallbackToken0Table.lookup poolAddress

/-- `getToken1FromPool` (EventListener.ts lines 1198-1209). -/
def getToken1FromPool (readToken1 : String → Option String) (poolAddress : String) :
    Option String :=
  match readToken1 poolAddress with
  | some t => some t
  | none => fallbackToken1Table.lookup poolAddress

/-- `addPopularPools` (EventListener.ts lines 1079-1163): for each
popular pool, resolve both token addresses and, when both are found,
start listening to the pool (failures are caught and skipped). -/
def addPopularPools (chain : String → ChainReadResult)
    (readToken0 readToken1 : String → Option String) (now : Nat)
    (st : ListenerState) : ListenerState :=
  popularPools.foldl
    (fun acc pool =>
      match getToken0FromPool readToken0 pool.2, getToken1FromPool readToken1 pool.2 with
      | some t0, some t1 => startPoolListening chain now acc pool.1 pool.2 t0 t1 none none
      | _, _ => acc)
    st

/-- `start()` (EventListener.ts lines 83-98): throws when already
listening; otherwise registers the factory listeners, pre-seeds the
popular pools, and flips `isListening`. -/
def startListener (chain : String → ChainReadResult)
    (readToken0 readToken1 : String → Option String) (now : Nat)
    (chainId : Nat) (protocols : List ProtocolType)
    (st : ListenerState) : Except String ListenerState :=
  if st.isListening then
    Except.error "Listener is already running"
  else
    let st1 := { st with factoryListeners := initFactoryListeners chainId protocols }
    let st2 := addPopularPools chain readToken0 readToken1 now st1
    Except.ok { st2 with isListening := true }

/-- `stop()` (EventListener.ts lines 111-139): a no-op when not
listening; otherwise the factory and pool listener maps are cleared
and `isListening` reset (`knownPools` and `tokenCache` are retained). -/
def stopListener (st : ListenerState) : ListenerState :=
  if !st.isListening then st
  else
    { st with
        factoryListeners := []
        poolListeners := []
        isListening := false }

/-! ### Event Normalization Engine (`EventListener.ts` swap handlers)

The raw `event` argument delivered by ethers.js exposes its metadata at
varying nesting levels; the handlers probe an ordered list of candidate
fields with JS `||` chains and fall back to a `Date.now()`-derived
placeholder.  `RawEventMeta` carries each candidate as an `Option`
(`none` = `undefined`), plus the `Date.now()` value (`now`) observed
during the callback. -/

/-- The raw event envelope's candidate metadata fields:
`transactionHash` / `hash` / `tx?.hash`, `logIndex` / `index` /
`log?.index`, `blockNumber` / `block` / `log?.blockNumber`. -/
structure RawEventMeta where
  transactionHash : Option String
  hash : Option String
  txHash : Option String
  logIndex : Option Nat
  index : Option Nat
  logInnerIndex : Option Nat
  blockNumber : Option Nat
  block : Option Nat
  logBlockNumber : Option Nat
  now : Nat
deriving DecidableEq

/-- `event.transactionHash || event.hash || event.tx?.hash ||
`tx-${Date.now()}`` (EventListener.ts line 469 and analogues). -/
def extractTxHash (e : RawEventMeta) : String :=
  jsOrStr e.transactionHash (jsOrStr e.hash (jsOrStr e.txHash ("tx-" ++ Nat.repr e.now)))

/-- `event.logIndex || event.index || event.log?.index || Date.now()`
(EventListener.ts line 470 and analogues). -/
def extractLogIndex (e : RawEventMeta) : Nat :=
  jsOrNat e.logIndex (jsOrNat e.index (jsOrNat e.logInnerIndex e.now))

/-- `event.blockNumber || event.block || event.log?.blockNumber || 0`
(EventListener.ts line 471 and analogues; the duplicated
`event.blockNumber` candidate in line 471 is redundant). -/
def extractBlockNumber (e : RawEventMeta) : Nat :=
  jsOrNat e.blockNumber (jsOrNat e.block (jsOrNat e.logBlockNumber 0))

/-- `${txHash}-${logIndex}-${eventType}`: the id template shared by all
handlers. -/
def mkEventId (txHash : String) (logIdx : Nat) (eventType : String) : String :=
  txHash ++ "-" ++ Nat.repr logIdx ++ "-" ++ eventType

/-- `handleSwapEvent` (EventListener.ts lines 458-499): normalization of
a V2-style swap, whose unsigned in/out amounts pass through directly. -/
def handleSwapEvent (poolInfo : PoolInfo)
    (sender amount0In amount1In amount0Out amount1Out toAddr : String)
    (e : RawEventMeta) : StandardizedEvent :=
  let txHash := extractTxHash e
  let logIdx := extractLogIndex e
  let blockNum := extractBlockNumber e
  { id := mkEventId txHash logIdx "swap"
    protocol := poolInfo.protocol
    version := poolInfo.version
    eventType := "swap"
    timestamp := e.now
    blockNumber := blockNum
    transactionHash := txHash
    logIndex := logIdx
    poolAddress := poolInfo.address
    token0 := poolInfo.token0
    token1 := poolInfo.token1
    data :=
      { sender := sender
        recipient := toAddr
        amount0In := amount0In
        amount1In := amount1In
        amount0Out := amount0Out
        amount1Out := amount1Out
        sqrtPriceX96 := none
        tick := none } }

/-- `handleV3SwapEvent` (EventListener.ts lines 741-784): normalization
of a V3-style swap.  `amount0`/`amount1` are the decimal string
renderings of the signed deltas; the conversion in lines 774-777 sets
`amountIn := startsWith('-') ? '0' : amount` and
`amountOut := startsWith('-') ? amount.slice(1) : '0'`. -/
def handleV3SwapEvent (poolInfo : PoolInfo)
    (sender recipient amount0 amount1 sqrtPriceX96 liquidity : String) (tick : Int)
    (e : RawEventMeta) : StandardizedEvent :=
  let txHash := extractTxHash e
  let logIdx := extractLogIndex e
  let blockNum := extractBlockNumber e
  { id := mkEventId txHash logIdx "swap"
    protocol := poolInfo.protocol
    version := poolInfo.version
    eventType := "swap"
    timestamp := e.now
    blockNumber := blockNum
    transactionHash := txHash
    logIndex := logIdx
    poolAddress := poolInfo.address
    token0 := poolInfo.token0
    token1 := poolInfo.token1
    data :=
      { sender := sender
        recipient := recipient
        amount0In := if jsStartsWith amount0 '-' then "0" else amount0
        amount1In := if jsStartsWith amount1 '-' then "0" else amount1
        amount0Out := if jsStartsWith amount0 '-' then jsSliceOne amount0 else "0"
        amount1Out := if jsStartsWith amount1 '-' then jsSliceOne amount1 else "0"
        sqrtPriceX96 := some sqrtPriceX96
        tick := some tick } }

/-! ### Buffered Ingestion Pipeline (`DataIngestionService.ts`)

The buffering and flush logic never inspects the buffered events, so it
is embedded generically in the event type `α`.  The ClickHouse gateway
is modelled by an oracle `ok : α → Bool` deciding whether
`insertEvent(event)` resolves or rejects, and the state records the
inserts the gateway has accepted, in order. -/

/-- The ingestion service state relevant to the standardized-event
buffer: the live `eventBuffer` and the log of successful
`insertEvent` calls the storage gateway has received. -/
structure IngestState (α : Type) where
  eventBuffer : List α
  inserted : List α
deriving DecidableEq

/-- The sequential insert loop of `flushEvents` (DataIngestionService.ts
lines 345-348): insert each event in order until one rejects.  Returns
the successfully inserted prefix and whether the whole batch
succeeded. -/
def insertAll {α : Type} (ok : α → Bool) : List α → List α × Bool
  | [] => ([], true)
  | e :: rest =>
    if ok e then
      let r := insertAll ok rest
      (e :: r.1, r.2)
    else ([], false)

/-- `flushEvents` (DataIngestionService.ts lines 335-355): an empty
buffer returns immediately; otherwise the buffer is snapshotted and
reset, each event is inserted sequentially, and on any failure the
entire snapshot is `unshift`-ed back onto the front of the live
buffer.  `arrivals` are the events appended to the (reset) live buffer
by `handleStandardizedEvent` while the flush's inserts were awaited. -/
def flushEvents {α : Type} (ok : α → Bool) (s : IngestState α) (arrivals : List α) :
    IngestState α :=
  match s.eventBuffer with
  | [] => { s with eventBuffer := arrivals }
  | eventsToFlush =>
    let r := insertAll ok eventsToFlush
    if r.2 then
      { eventBuffer := arrivals, inserted := s.inserted ++ r.1 }
    else
      { eventBuffer := eventsToFlush ++ arrivals, inserted := s.inserted ++ r.1 }

/-- The `batchSize = 100` member default. -/
def defaultBatchSize : Nat := 100

/-- `handleStandardizedEvent` (DataIngestionService.ts lines 262-272):
push the event onto the buffer and flush when the buffer has reached
the batch size. -/
def handleStandardizedEvent {α : Type} (ok : α → Bool) (batchSize : Nat)
    (s : IngestState α) (e : α) : IngestState α :=
  let s' := { s with eventBuffer := s.eventBuffer ++ [e] }
  if batchSize ≤ s'.eventBuffer.length then flushEvents ok s' [] else s'

/-- Delivery of a stream of standardized events to the ingestion
service, one `handleStandardizedEvent` callback per event. -/
def processEvents {α : Type} (ok : α → Bool) (batchSize : Nat)
    (s : IngestState α) (events : List α) : IngestState α :=
  events.foldl (handleStandardizedEvent ok batchSize) s

/-! ### Supporting lemmas about the ingestion pipeline -/

theorem insertAll_all_ok {α : Type} (ok : α → Bool) (l : List α)
    (h : ∀ e ∈ l, ok e = true) : insertAll ok l = (l, true) := by
  induction l with
  | nil => rfl
  | cons e rest ih =>
    have he : ok e = true := h e (List.mem_cons_self _ _)
    have hrest : ∀ e ∈ rest, ok e = true := fun x hx => h x (List.mem_cons_of_mem _ hx)
    simp [insertAll, he, ih hrest]

theorem insertAll_fst_mem {α : Type} (ok : α → Bool) (l : List α) (e : α)
    (h : e ∈ (insertAll ok l).1) : e ∈ l := by
  induction l with
  | nil => simpa [insertAll] using h
  | cons x rest ih =>
    by_cases hx : ok x = true
    · simp only [insertAll, if_pos hx] at h
      rcases List.mem_cons.1 h with h | h
      · exact h ▸ List.mem_cons_self _ _
      · exact List.mem_cons_of_mem _ (ih h)
    · simp only [insertAll, if_neg hx] at h
      simp at h

theorem flushEvents_of_ne_nil {α : Type} (ok : α → Bool) (s : IngestState α)
    (arrivals : List α) (h : s.eventBuffer ≠ []) :
    flushEvents ok s arrivals =
      if (insertAll ok s.eventBuffer).2 then
        ⟨arrivals, s.inserted ++ (insertAll ok s.eventBuffer).1⟩
      else ⟨s.eventBuffer ++ arrivals, s.inserted ++ (insertAll ok s.eventBuffer).1⟩ := by
  obtain ⟨buf, ins⟩ := s
  rcases buf with _ | ⟨e, rest⟩
  · exact absurd rfl h
  · rfl

theorem processEvents_no_flush {α : Type} (ok : α → Bool) (batchSize : Nat)
    (s : IngestState α) (events : List α)
    (h : s.eventBuffer.length + events.length < batchSize) :
    processEvents ok batchSize s events =
      ⟨s.eventBuffer ++ events, s.inserted⟩ := by
  induction events generalizing s with
  | nil => simp [processEvents]
  | cons e rest ih =>
    simp only [List.length_cons] at h
    have hstep : handleStandardizedEvent ok batchSize s e =
        ⟨s.eventBuffer ++ [e], s.inserted⟩ := by
      unfold handleStandardizedEvent
      rw [if_neg]
      simp only [List.length_append, List.length_cons, List.length_nil]
      omega
    show processEvents ok batchSize (handleStandardizedEvent ok batchSize s e) rest = _
    rw [hstep, ih]
    · simp
    · simp only [List.length_append, List.length_cons, List.length_nil]
      omega

/-! ### Sample data used by concrete witnesses -/

/-- A concrete token for witness states. -/
def sampleToken0 : TokenInfo :=
  ⟨"0xC02aaA39b223FE8D0A0e5C4F27eAD9083C756Cc2", "WETH", 18, "Wrapped Ether"⟩

/-- A second concrete token for witness states. -/
def sampleToken1 : TokenInfo :=
  ⟨"0xA0b86991c6218b36c1d19D4a2e9Eb0cE3606eB48", "USDC", 6, "USD Coin"⟩

/-- A concrete V3 pool for witness events. -/
def samplePool : PoolInfo :=
  ⟨"0x88e6A0c2dDD26FEEb64F039a2c41296FcB3f5640", .uniswapV3, "v3",
    sampleToken0, sampleToken1, some 500, some 10, 1700000000000, true⟩

/-- A raw event envelope carrying its metadata in the primary fields. -/
def sampleRawMeta : RawEventMeta :=
  ⟨some "0xabc", none, none, some 7, none, none, some 19000000, none, none, 1700000000123⟩

/-- The same chain event delivered in an alternative envelope shape:
the hash under `event.hash`, the log index under `event.index`, and a
different `Date.now()` observation. -/
def sampleRawMetaAlt : RawEventMeta :=
  ⟨none, some "0xabc", none, none, some 7, none, none, some 19000000, none, 1700000000456⟩

/-- A chain-read oracle on which every metadata read rejects. -/
def chainAllErr : String → ChainReadResult := fun _ => .err

/-- A chain-read oracle on which every metadata read resolves. -/
def chainAllOk : String → ChainReadResult := fun _ => .ok "WETH" 18 (some "Wrapped Ether")

/-! ### Claim theorems -/

/-- C2: if a flush of the N buffered standardized events fails, all N
events are re-prepended to the front of the live buffer in their
original order, followed by the events appended since the flush began;
no exception reaches the caller (`flushEvents` is total and returns a
state), and since the next flush snapshots the buffer from the front,
the same N events are retried first. -/
theorem c2_failed_flush_requeues_whole_batch {α : Type} (ok : α → Bool)
    (s : IngestState α) (arrivals : List α)
    (hfail : (insertAll ok s.eventBuffer).2 = false) :
    (flushEvents ok s arrivals).eventBuffer = s.eventBuffer ++ arrivals ∧
    (flushEvents ok s arrivals).eventBuffer.take s.eventBuffer.length = s.eventBuffer := by
  have hne : s.eventBuffer ≠ [] := by
    intro hnil
    rw [hnil] at hfail
    simp [insertAll] at hfail
  rw [flushEvents_of_ne_nil ok s arrivals hne, if_neg (by simp [hfail])]
  exact ⟨rfl, List.take_left _ _⟩

/-- Witness for C2: a concrete three-event buffer whose third insert
rejects is requeued in full, ahead of an arrival. -/
theorem c2_witness :
    (insertAll (fun n => decide (n < 2)) ([10, 1, 5] : List Nat)).2 = false ∧
    (flushEvents (fun n => decide (n < 2)) ⟨[10, 1, 5], []⟩ [7]).eventBuffer
      = [10, 1, 5, 7] := by
  constructor
  · decide
  · exact (c2_failed_flush_requeues_whole_batch (fun n => decide (n < 2))
      ⟨[10, 1, 5], []⟩ [7] (by decide)).1

/-- C3: with the default batch size of 100, appending the 100th
standardized event triggers a flush, and when no storage write fails
the live buffer returns to length 0 and the storage gateway receives
exactly the 100 buffered events as `insertEvent` calls, in buffer
order. -/
theorem c3_hundredth_event_flushes {α : Type} (ok : α → Bool) (events : List α)
    (hlen : events.length = defaultBatchSize)
    (hok : ∀ e ∈ events, ok e = true) :
    processEvents ok defaultBatchSize ⟨[], []⟩ events = ⟨[], events⟩ := by
  rcases List.eq_nil_or_concat events with rfl | ⟨ys, z, rfl⟩
  · simp [defaultBatchSize] at hlen
  · rw [List.concat_eq_append] at *
    have hys : ys.length = 99 := by
      simp only [List.length_append, List.length_cons, List.length_nil,
        defaultBatchSize] at hlen
      omega
    have hfirst : processEvents ok defaultBatchSize ⟨[], []⟩ ys =
        ⟨ys, []⟩ := by
      have := processEvents_no_flush ok defaultBatchSize ⟨[], []⟩ ys
        (by simp [hys, defaultBatchSize])
      simpa using this
    unfold processEvents at *
    rw [List.foldl_append, hfirst]
    show handleStandardizedEvent ok defaultBatchSize ⟨ys, []⟩ z = _
    unfold handleStandardizedEvent
    rw [if_pos (by simp [hys, defaultBatchSize])]
    show flushEvents ok ⟨ys ++ [z], []⟩ [] = _
    rw [flushEvents_of_ne_nil ok ⟨ys ++ [z], []⟩ [] (by simp)]
    show (if (insertAll ok (ys ++ [z])).2 then _ else _) = _
    rw [insertAll_all_ok ok (ys ++ [z]) hok]
    simp

/-- Witness for C3: delivering the events `0,…,99` with an
always-succeeding gateway empties the buffer and stores all 100 in
order. -/
theorem c3_witness :
    (List.range 100).length = defaultBatchSize ∧
    processEvents (fun _ => true) defaultBatchSize ⟨[], []⟩ (List.range 100)
      = ⟨[], List.range 100⟩ := by
  refine ⟨by simp [defaultBatchSize], ?_⟩
  exact c3_hundredth_event_flushes (fun _ => true) (List.range 100)
    (by simp [defaultBatchSize]) (fun e _ => rfl)

/-- C9: when a flush fails after k of its N snapshot events were
already inserted, the entire snapshot (including the k stored events)
is re-prepended, so a later successful flush hands those k events to
the storage gateway a second time: each appears at least twice in the
gateway's insert log. -/
theorem c9_midbatch_failure_duplicates {α : Type} [DecidableEq α] (ok : α → Bool)
    (events pre : List α) (hfail : insertAll ok events = (pre, false)) :
    (flushEvents ok ⟨events, []⟩ []).eventBuffer = events ∧
    (flushEvents ok ⟨events, []⟩ []).inserted = pre ∧
    (flushEvents (fun _ => true) (flushEvents ok ⟨events, []⟩ []) []).inserted
      = pre ++ events ∧
    ∀ e ∈ pre,
      2 ≤ (flushEvents (fun _ => true) (flushEvents ok ⟨events, []⟩ []) []).inserted.count e := by
  have hne : events ≠ [] := by
    intro hnil
    rw [hnil] at hfail
    simp [insertAll] at hfail
  have hs1 : flushEvents ok ⟨events, []⟩ [] = ⟨events, pre⟩ := by
    rw [flushEvents_of_ne_nil ok ⟨events, []⟩ [] hne, hfail]
    simp
  have hs2 : flushEvents (fun _ => true) (⟨events, pre⟩ : IngestState α) []
      = ⟨[], pre ++ events⟩ := by
    rw [flushEvents_of_ne_nil (fun _ => true) ⟨events, pre⟩ [] hne,
      insertAll_all_ok (fun _ => true) events (fun e _ => rfl)]
    simp
  rw [hs1, hs2]
  refine ⟨rfl, rfl, rfl, ?_⟩
  intro e he
  have hmemEvents : e ∈ events := insertAll_fst_mem ok events e (by rw [hfail]; exact he)
  have h1 : 1 ≤ pre.count e := List.one_le_count_iff.2 he
  have h2 : 1 ≤ events.count e := List.one_le_count_iff.2 hmemEvents
  simp only [List.count_append]
  omega

/-- Witness for C9: the gateway accepts `10, 1`, rejects `5`; after
the requeue a recovered gateway stores `10` and `1` twice. -/
theorem c9_witness :
    insertAll (fun n => decide (n < 20)) ([10, 1, 25, 3] : List Nat) = ([10, 1], false) ∧
    (flushEvents (fun _ => true)
        (flushEvents (fun n => decide (n < 20)) ⟨[10, 1, 25, 3], []⟩ []) []).inserted
      = [10, 1] ++ [10, 1, 25, 3] := by
  refine ⟨by decide, ?_⟩
  exact (c9_midbatch_failure_duplicates (fun n => decide (n < 20))
    [10, 1, 25, 3] [10, 1] (by decide)).2.2.1

/-- C10: every chain id other than 1 (Ethereum) and 56 (BSC) silently
receives the Ethereum Mainnet contract configuration from
`getChainConfig`, so factory listeners for an unknown chain are set up
at the Ethereum factory addresses exactly as they would be for chain
1, instead of the chain being surfaced as unsupported. -/
theorem c10_unknown_chain_uses_ethereum_config (chainId : Nat)
    (h1 : chainId ≠ 1) (h56 : chainId ≠ 56) :
    getChainConfig chainId = contractAddressesEthereum ∧
    ∀ protocols, initFactoryListeners chainId protocols =
      initFactoryListeners 1 protocols := by
  have hcfg : getChainConfig chainId = contractAddressesEthereum := by
    unfold getChainConfig
    split
    · exact absurd rfl h1
    · exact absurd rfl h56
    · rfl
  refine ⟨hcfg, ?_⟩
  intro protocols
  unfold initFactoryListeners
  rw [hcfg]
  rfl

/-- Witness for C10: chain id 137 (Polygon, unsupported) is configured
exactly like Ethereum Mainnet. -/
theorem c10_witness :
    (137 : Nat) ≠ 1 ∧ (137 : Nat) ≠ 56 ∧
    getChainConfig 137 = contractAddressesEthereum := by
  refine ⟨by decide, by decide, ?_⟩
  exact (c10_unknown_chain_uses_ethereum_config 137 (by decide) (by decide)).1

/-- C8: calling `start()` while the listener is already running
returns the explicit error `"Listener is already running"` without
producing a new state (the thrown error leaves the listener state
unchanged), and calling `stop()` while not running returns the state
unchanged without error. -/
theorem c8_start_stop_guards (chain : String → ChainReadResult)
    (readToken0 readToken1 : String → Option String) (now chainId : Nat)
    (protocols : List ProtocolType) (st : ListenerState) :
    (st.isListening = true →
      startListener chain readToken0 readToken1 now chainId protocols st =
        Except.error "Listener is already running") ∧
    (st.isListening = false → stopListener st = st) := by
  constructor
  · intro h
    unfold startListener
    rw [if_pos h]
  · intro h
    unfold stopListener
    rw [if_pos (by rw [h]; rfl)]

/-- Witness for C8: a running listener rejects `start()`; the fresh
listener's `stop()` is a no-op. -/
theorem c8_witness :
    startListener chainAllErr (fun _ => none) (fun _ => none) 0 1 []
        { initialListenerState with isListening := true }
      = Except.error "Listener is already running" ∧
    stopListener initialListenerState = initialListenerState := by
  constructor
  · exact (c8_start_stop_guards chainAllErr (fun _ => none) (fun _ => none) 0 1 []
      { initialListenerState with isListening := true }).1 rfl
  · exact (c8_start_stop_guards chainAllErr (fun _ => none) (fun _ => none) 0 1 []
      initialListenerState).2 rfl

/-- C6: for every token address whose chain read fails and which is
absent from the static fallback table, resolution returns the sentinel
`{symbol: "UNKNOWN", decimals: 18, name: "Unknown Token"}` without
touching the cache — and, being a total function, never throws; a
failure of only the `name()` call substitutes `"Unknown"` for the name
while keeping the chain-read symbol and decimals. -/
theorem c6_resolver_fallback_totality (chain : String → ChainReadResult)
    (tokenCache : List (String × TokenInfo)) (tokenAddress : String) :
    (chain tokenAddress = .err → getFallbackTokenInfo tokenAddress = none →
      getTokenInfo chain tokenCache tokenAddress =
        (unknownTokenInfo tokenAddress, tokenCache)) ∧
    (∀ symbol decimals, chain tokenAddress = .ok symbol decimals none →
      getTokenInfo chain tokenCache tokenAddress =
        (⟨tokenAddress, symbol, decimals, "Unknown"⟩, tokenCache)) := by
  constructor
  · intro herr hfb
    simp [getTokenInfo, herr, hfb]
  · intro symbol decimals hok
    simp [getTokenInfo, hok]

/-- A chain-read oracle on which only the `name()` call rejects. -/
def chainNameFails : String → ChainReadResult := fun _ => .ok "TKN" 8 none

/-- Witness for C6: the burn address is not in the fallback table, so a
failed read resolves to the sentinel; a name-only failure keeps the
chain-read symbol and decimals. -/
theorem c6_witness :
    getFallbackTokenInfo "0x000000000000000000000000000000000000dEaD" = none ∧
    getTokenInfo chainAllErr [] "0x000000000000000000000000000000000000dEaD" =
      (unknownTokenInfo "0x000000000000000000000000000000000000dEaD", []) ∧
    getTokenInfo chainNameFails [] "0xToken" = (⟨"0xToken", "TKN", 8, "Unknown"⟩, []) := by
  refine ⟨by decide, ?_, ?_⟩
  · exact (c6_resolver_fallback_totality chainAllErr []
      "0x000000000000000000000000000000000000dEaD").1 rfl (by decide)
  · exact (c6_resolver_fallback_totality chainNameFails [] "0xToken").2 "TKN" 8 rfl

/-- Counterexample to C5 as stated: a resolution whose chain read
succeeds is *not* written to the token cache — after resolving WETH
from the chain the cache is still empty, so no second resolution can
be served from it. -/
theorem c5_counterexample :
    (getTokenInfo chainAllOk [] "0xC02aaA39b223FE8D0A0e5C4F27eAD9083C756Cc2").1 =
      ⟨"0xC02aaA39b223FE8D0A0e5C4F27eAD9083C756Cc2", "WETH", 18, "Wrapped Ether"⟩ ∧
    (getTokenInfo chainAllOk [] "0xC02aaA39b223FE8D0A0e5C4F27eAD9083C756Cc2").2 = [] := by
  exact ⟨rfl, rfl⟩

/-- C5 (amended): token resolution writes to the cache only on a
fallback-table hit; a chain-read success and the sentinel result leave
the cache unchanged, and the cache is never consulted (the result is
independent of the cache contents), so a repeated resolution performs
the chain read again instead of returning a cached value. -/
theorem c5_cache_only_fallback_hits (chain : String → ChainReadResult)
    (cache cache' : List (String × TokenInfo)) (tokenAddress : String) :
    (getTokenInfo chain cache tokenAddress).1 = (getTokenInfo chain cache' tokenAddress).1 ∧
    (∀ symbol decimals name, chain tokenAddress = .ok symbol decimals name →
      (getTokenInfo chain cache tokenAddress).2 = cache) ∧
    (∀ t, chain tokenAddress = .err → getFallbackTokenInfo tokenAddress = some t →
      (getTokenInfo chain cache tokenAddress).2 = mapSet cache tokenAddress t) ∧
    (chain tokenAddress = .err → getFallbackTokenInfo tokenAddress = none →
      (getTokenInfo chain cache tokenAddress).2 = cache) := by
  refine ⟨?_, ?_, ?_, ?_⟩
  · rcases hc : chain tokenAddress with _ | _
    · simp [getTokenInfo, hc]
    · rcases hf : getFallbackTokenInfo tokenAddress with _ | t
      · simp [getTokenInfo, hc, hf]
      · simp [getTokenInfo, hc, hf]
  · intro symbol decimals name hok
    simp [getTokenInfo, hok]
  · intro t herr hfb
    simp [getTokenInfo, herr, hfb]
  · intro herr hfb
    simp [getTokenInfo, herr, hfb]

/-- Witness for C5 (amended): a failed chain read for WETH hits the
fallback table and only then is the cache written. -/
theorem c5_witness :
    getFallbackTokenInfo "0xC02aaA39b223FE8D0A0e5C4F27eAD9083C756Cc2" =
      some ⟨"0xC02aaA39b223FE8D0A0e5C4F27eAD9083C756Cc2", "WETH", 18, "Wrapped Ether"⟩ ∧
    (getTokenInfo chainAllErr [] "0xC02aaA39b223FE8D0A0e5C4F27eAD9083C756Cc2").2 =
      mapSet [] "0xC02aaA39b223FE8D0A0e5C4F27eAD9083C756Cc2"
        ⟨"0xC02aaA39b223FE8D0A0e5C4F27eAD9083C756Cc2", "WETH", 18, "Wrapped Ether"⟩ := by
  refine ⟨by decide, ?_⟩
  exact (c5_cache_only_fallback_hits chainAllErr [] []
      "0xC02aaA39b223FE8D0A0e5C4F27eAD9083C756Cc2").2.2.1
    ⟨"0xC02aaA39b223FE8D0A0e5C4F27eAD9083C756Cc2", "WETH", 18, "Wrapped Ether"⟩
    rfl (by decide)

/-- C7: the pool registry holds at most one `PoolInfo` per address:
discovering a pool address that already has a listener is a no-op
(second discovery returns the state unchanged, without error), a fresh
discovery leaves exactly one registry binding for that address, and
the at-most-one-binding invariant is preserved for every address. -/
theorem c7_pool_registry_at_most_one (chain chain' : String → ChainReadResult)
    (now now' : Nat) (st : ListenerState) (protocol protocol' : ProtocolType)
    (poolAddress token0 token1 token0' token1' : String)
    (fee fee' : Option Nat) (tickSpacing tickSpacing' : Option Int)
    (hnew : poolAddress ∉ st.poolListeners)
    (hcount : countKey st.knownPools poolAddress = 0) :
    startPoolListening chain' now'
        (startPoolListening chain now st protocol poolAddress token0 token1 fee tickSpacing)
        protocol' poolAddress token0' token1' fee' tickSpacing'
      = startPoolListening chain now st protocol poolAddress token0 token1 fee tickSpacing ∧
    countKey (startPoolListening chain now st protocol poolAddress token0 token1
        fee tickSpacing).knownPools poolAddress = 1 ∧
    ∀ a, countKey st.knownPools a ≤ 1 →
      countKey (startPoolListening chain now st protocol poolAddress token0 token1
        fee tickSpacing).knownPools a ≤ 1 := by
  have h1 : startPoolListening chain now st protocol poolAddress token0 token1 fee tickSpacing =
      { st with
          tokenCache := (getTokenInfo chain (getTokenInfo chain st.tokenCache token0).2 token1).2
          knownPools := mapSet st.knownPools poolAddress
            { address := poolAddress
              protocol := protocol
              version := protocolVersion protocol
              token0 := (getTokenInfo chain st.tokenCache token0).1
              token1 := (getTokenInfo chain (getTokenInfo chain st.tokenCache token0).2 token1).1
              fee := fee
              tickSpacing := tickSpacing
              createdAt := now
              isActive := true }
          poolListeners := st.poolListeners ++ [poolAddress] } := by
    unfold startPoolListening
    rw [if_neg hnew]
  refine ⟨?_, ?_, ?_⟩
  · rw [h1]
    unfold startPoolListening
    rw [if_pos (by simp)]
  · rw [h1]
    show countKey (mapSet st.knownPools poolAddress _) poolAddress = 1
    rw [countKey_mapSet_self, hcount]
    rfl
  · intro a ha
    rw [h1]
    exact countKey_mapSet_le _ _ _ _ ha

/-- Witness for C7: a freshly discovered pool address is registered
once; its is the registry's only binding for that address. -/
theorem c7_witness :
    ("0xPoolA" ∉ initialListenerState.poolListeners) ∧
    countKey initialListenerState.knownPools "0xPoolA" = 0 ∧
    countKey (startPoolListening chainAllErr 1700000000000 initialListenerState
      .uniswapV2 "0xPoolA" "0xT0" "0xT1" none none).knownPools "0xPoolA" = 1 := by
  refine ⟨by simp [initialListenerState], rfl, ?_⟩
  exact (c7_pool_registry_at_most_one chainAllErr chainAllErr 1700000000000 0
    initialListenerState .uniswapV2 .uniswapV2 "0xPoolA" "0xT0" "0xT1" "0xT0" "0xT1"
    none none none none (by simp [initialListenerState]) rfl).2.1

/-- The swap payload produced by the V3 swap handler. -/
def v3SwapData (poolInfo : PoolInfo)
    (sender recipient amount0 amount1 sqrtPriceX96 liquidity : String) (tick : Int)
    (e : RawEventMeta) : SwapEventData :=
  (handleV3SwapEvent poolInfo sender recipient amount0 amount1 sqrtPriceX96 liquidity
    tick e).data

/-- Exactly one of a rendered in/out field pair differs from `"0"`,
and that field carries the given magnitude string. -/
def exactlyOneNonzeroPair (amountIn amountOut magnitude : String) : Prop :=
  (amountIn = "0" ∧ amountOut ≠ "0" ∧ amountOut = magnitude) ∨
  (amountOut = "0" ∧ amountIn ≠ "0" ∧ amountIn = magnitude)

theorem v3_sign_components (i : Int) :
    (if jsStartsWith (Int.repr i) '-' then "0" else Int.repr i) =
      (if i < 0 then "0" else Int.repr i) ∧
    (if jsStartsWith (Int.repr i) '-' then jsSliceOne (Int.repr i) else "0") =
      (if i < 0 then Nat.repr i.natAbs else "0") := by
  by_cases h : i < 0
  · rw [jsStartsWith_intRepr_neg i h]
    simp [h, jsSliceOne_intRepr_neg i h]
  · rw [jsStartsWith_intRepr_nonneg i (le_of_not_lt h)]
    simp [h]

/-- Counterexample to C1 as stated: for the V3 swap deltas
`(amount0, amount1) = (-1000, 0)` the claim asserts
`amount0In = "1000"` and `amount0Out = "0"` (a negative delta becomes
the `*In` field) and that exactly one of the `amount1` fields is
nonzero; the handler instead produces `amount0In = "0"`,
`amount0Out = "1000"`, and both `amount1` fields `"0"`. -/
theorem c1_counterexample :
    (v3SwapData samplePool "0xS" "0xR" (Int.repr (-1000)) (Int.repr 0)
        "79228162514264337593543950336" "12345" 0 sampleRawMeta).amount0In = "0" ∧
    (v3SwapData samplePool "0xS" "0xR" (Int.repr (-1000)) (Int.repr 0)
        "79228162514264337593543950336" "12345" 0 sampleRawMeta).amount0Out = "1000" ∧
    (v3SwapData samplePool "0xS" "0xR" (Int.repr (-1000)) (Int.repr 0)
        "79228162514264337593543950336" "12345" 0 sampleRawMeta).amount1In = "0" ∧
    (v3SwapData samplePool "0xS" "0xR" (Int.repr (-1000)) (Int.repr 0)
        "79228162514264337593543950336" "12345" 0 sampleRawMeta).amount1Out = "0" ∧
    ¬((v3SwapData samplePool "0xS" "0xR" (Int.repr (-1000)) (Int.repr 0)
          "79228162514264337593543950336" "12345" 0 sampleRawMeta).amount0In = "1000" ∧
      (v3SwapData samplePool "0xS" "0xR" (Int.repr (-1000)) (Int.repr 0)
          "79228162514264337593543950336" "12345" 0 sampleRawMeta).amount0Out = "0") := by
  refine ⟨rfl, rfl, rfl, rfl, ?_⟩
  intro h
  exact absurd (h.1.symm.trans rfl) (by decide)

/-- C1 (amended): for every V3-style swap with signed deltas, for each
token independently the handler maps a *negative* delta to that
token's `*Out` field (as the delta's magnitude) with `*In = "0"`, and
a *non-negative* delta to the `*In` field with `*Out = "0"`; hence for
each token with a *nonzero* delta exactly one of its in/out fields is
nonzero, and it equals the absolute value of the delta (a zero delta
leaves both fields `"0"`). -/
theorem c1_v3_swap_sign_split (poolInfo : PoolInfo)
    (sender recipient sqrtPriceX96 liquidity : String) (tick : Int)
    (e : RawEventMeta) (amount0 amount1 : Int) :
    v3SwapData poolInfo sender recipient (Int.repr amount0) (Int.repr amount1)
        sqrtPriceX96 liquidity tick e =
      { sender := sender
        recipient := recipient
        amount0In := if amount0 < 0 then "0" else Int.repr amount0
        amount1In := if amount1 < 0 then "0" else Int.repr amount1
        amount0Out := if amount0 < 0 then Nat.repr amount0.natAbs else "0"
        amount1Out := if amount1 < 0 then Nat.repr amount1.natAbs else "0"
        sqrtPriceX96 := some sqrtPriceX96
        tick := some tick } ∧
    (amount0 ≠ 0 → exactlyOneNonzeroPair
      (v3SwapData poolInfo sender recipient (Int.repr amount0) (Int.repr amount1)
        sqrtPriceX96 liquidity tick e).amount0In
      (v3SwapData poolInfo sender recipient (Int.repr amount0) (Int.repr amount1)
        sqrtPriceX96 liquidity tick e).amount0Out
      (Nat.repr amount0.natAbs)) ∧
    (amount1 ≠ 0 → exactlyOneNonzeroPair
      (v3SwapData poolInfo sender recipient (Int.repr amount0) (Int.repr amount1)
        sqrtPriceX96 liquidity tick e).amount1In
      (v3SwapData poolInfo sender recipient (Int.repr amount0) (Int.repr amount1)
        sqrtPriceX96 liquidity tick e).amount1Out
      (Nat.repr amount1.natAbs)) := by
  have h0 := v3_sign_components amount0
  have h1 := v3_sign_components amount1
  have eIn0 : (v3SwapData poolInfo sender recipient (Int.repr amount0) (Int.repr amount1)
      sqrtPriceX96 liquidity tick e).amount0In =
        if amount0 < 0 then "0" else Int.repr amount0 := h0.1
  have eOut0 : (v3SwapData poolInfo sender recipient (Int.repr amount0) (Int.repr amount1)
      sqrtPriceX96 liquidity tick e).amount0Out =
        if amount0 < 0 then Nat.repr amount0.natAbs else "0" := h0.2
  have eIn1 : (v3SwapData poolInfo sender recipient (Int.repr amount0) (Int.repr amount1)
      sqrtPriceX96 liquidity tick e).amount1In =
        if amount1 < 0 then "0" else Int.repr amount1 := h1.1
  have eOut1 : (v3SwapData poolInfo sender recipient (Int.repr amount0) (Int.repr amount1)
      sqrtPriceX96 liquidity tick e).amount1Out =
        if amount1 < 0 then Nat.repr amount1.natAbs else "0" := h1.2
  refine ⟨?_, ?_, ?_⟩
  · simp only [v3SwapData, handleV3SwapEvent, SwapEventData.mk.injEq]
    refine ⟨trivial, trivial, h0.1, h1.1, h0.2, h1.2, trivial, trivial⟩
  · intro hne
    rw [eIn0, eOut0]
    by_cases hlt : amount0 < 0
    · rw [if_pos hlt, if_pos hlt]
      exact Or.inl ⟨rfl, natRepr_ne_zero _ (Int.natAbs_ne_zero.2 hne), rfl⟩
    · rw [if_neg hlt, if_neg hlt]
      refine Or.inr ⟨rfl, ?_, intRepr_nonneg amount0 (le_of_not_lt hlt)⟩
      rw [intRepr_nonneg amount0 (le_of_not_lt hlt)]
      exact natRepr_ne_zero _ (Int.natAbs_ne_zero.2 hne)
  · intro hne
    rw [eIn1, eOut1]
    by_cases hlt : amount1 < 0
    · rw [if_pos hlt, if_pos hlt]
      exact Or.inl ⟨rfl, natRepr_ne_zero _ (Int.natAbs_ne_zero.2 hne), rfl⟩
    · rw [if_neg hlt, if_neg hlt]
      refine Or.inr ⟨rfl, ?_, intRepr_nonneg amount1 (le_of_not_lt hlt)⟩
      rw [intRepr_nonneg amount1 (le_of_not_lt hlt)]
      exact natRepr_ne_zero _ (Int.natAbs_ne_zero.2 hne)

/-- Witness for C1 (amended): the deltas `(-1000, 2000)` split one-sidedly,
with the token-0 magnitude on the out side and token 1 on the in side. -/
theorem c1_witness :
    ((-1000 : Int) ≠ 0) ∧ ((2000 : Int) ≠ 0) ∧
    exactlyOneNonzeroPair
      (v3SwapData samplePool "0xS" "0xR" (Int.repr (-1000)) (Int.repr 2000)
        "79228162514264337593543950336" "12345" 100 sampleRawMeta).amount0In
      (v3SwapData samplePool "0xS" "0xR" (Int.repr (-1000)) (Int.repr 2000)
        "79228162514264337593543950336" "12345" 100 sampleRawMeta).amount0Out
      (Nat.repr (Int.natAbs (-1000))) ∧
    exactlyOneNonzeroPair
      (v3SwapData samplePool "0xS" "0xR" (Int.repr (-1000)) (Int.repr 2000)
        "79228162514264337593543950336" "12345" 100 sampleRawMeta).amount1In
      (v3SwapData samplePool "0xS" "0xR" (Int.repr (-1000)) (Int.repr 2000)
        "79228162514264337593543950336" "12345" 100 sampleRawMeta).amount1Out
      (Nat.repr (Int.natAbs 2000)) := by
  refine ⟨by decide, by decide, ?_, ?_⟩
  · exact (c1_v3_swap_sign_split samplePool "0xS" "0xR"
      "79228162514264337593543950336" "12345" 100 sampleRawMeta (-1000) 2000).2.1
      (by decide)
  · exact (c1_v3_swap_sign_split samplePool "0xS" "0xR"
      "79228162514264337593543950336" "12345" 100 sampleRawMeta (-1000) 2000).2.2
      (by decide)

/-- C4: the `StandardizedEvent.id` is a pure function of the extracted
`(transactionHash, logIndex)` metadata and the event type: two raw
events whose delivered metadata extracts to the same pair, normalized
to the same event type `swap` (whether by the V2 or the V3 handler),
receive the identical id `"<txHash>-<logIndex>-swap"`; rerunning
normalization on the same raw event therefore reproduces the id. -/
theorem c4_id_deterministic (pool1 pool2 : PoolInfo)
    (sender a0In a1In a0Out a1Out toAddr : String)
    (sender' recipient amount0 amount1 sqrtPriceX96 liquidity : String) (tick : Int)
    (e1 e2 : RawEventMeta)
    (hTx : extractTxHash e1 = extractTxHash e2)
    (hLog : extractLogIndex e1 = extractLogIndex e2) :
    (handleSwapEvent pool1 sender a0In a1In a0Out a1Out toAddr e1).id =
      (handleV3SwapEvent pool2 sender' recipient amount0 amount1 sqrtPriceX96
        liquidity tick e2).id ∧
    (handleSwapEvent pool1 sender a0In a1In a0Out a1Out toAddr e1).id =
      mkEventId (extractTxHash e1) (extractLogIndex e1) "swap" := by
  constructor
  · show mkEventId (extractTxHash e1) (extractLogIndex e1) "swap" =
      mkEventId (extractTxHash e2) (extractLogIndex e2) "swap"
    rw [hTx, hLog]
  · rfl

/-- Witness for C4: the same chain event delivered in two envelope
shapes (hash under `transactionHash` vs `hash`, log index under
`logIndex` vs `index`, different `Date.now()` observations) yields the
same id from the V2 and the V3 handler. -/
theorem c4_witness :
    extractTxHash sampleRawMeta = extractTxHash sampleRawMetaAlt ∧
    extractLogIndex sampleRawMeta = extractLogIndex sampleRawMetaAlt ∧
    (handleSwapEvent samplePool "0xS" "100" "0" "0" "95" "0xR" sampleRawMeta).id =
      (handleV3SwapEvent samplePool "0xS" "0xR" "-1000" "2000"
        "79228162514264337593543950336" "12345" 100 sampleRawMetaAlt).id := by
  refine ⟨by decide, by decide, ?_⟩
  exact (c4_id_deterministic samplePool samplePool "0xS" "100" "0" "0" "95" "0xR" "0xS"
    "0xR" "-1000" "2000" "79228162514264337593543950336" "12345" 100
    sampleRawMeta sampleRawMetaAlt (by decide) (by decide)).1

end ProtocolEvents
